import Mathlib

/-!
Verification of `charmhelpers/contrib/ssl/files/check_ssl_certificate.py`,
a Nagios-style check for x509 certificate expiry.

The script has two functions and a `__main__` block:

- `x509_checkend(cert_filename, time)` spawns
  `openssl x509 -checkend <time> -in <cert_filename>`, capturing stdout and
  stderr, and converts the outcome into a dict with a `result` integer and,
  on some paths, a `message` value.
- `check_cert_expiry(cert_filename, warn, crit)` calls `x509_checkend` at the
  critical horizon (`crit * 86400` seconds) and, when that probe is clean, at
  the warning horizon (`warn * 86400` seconds), returning a (status, message)
  pair.
- `__main__` parses arguments, prints the message and exits with the status.

The embedding models the outcome of one external `openssl` invocation as a
`SpawnOutcome` (either an exception raised by `subprocess.Popen` or
`communicate`, or a completed process with an integer return code and raw
stdout/stderr byte strings), and models the environment seen by
`check_cert_expiry` as a map from horizon seconds to the `SpawnOutcome` the
spawn at that horizon produces.  Python exceptions that can escape the
functions (UnicodeDecodeError from `bytes.decode`, NameError from the free
variable `args`, KeyError from a dict subscript) are modelled with `Except`.
-/

/-- Severity code 0, from `STATUS_OK = 0` in the script. -/
def STATUS_OK : Nat := 0

/-- Severity code 1, from `STATUS_WARN = 1` in the script. -/
def STATUS_WARN : Nat := 1

/-- Severity code 2, from `STATUS_CRIT = 2` in the script. -/
def STATUS_CRIT : Nat := 2

/-- Severity code 3, from `STATUS_UNKNOWN = 3` in the script. -/
def STATUS_UNKNOWN : Nat := 3

/-- A UTF-8 continuation byte: high bits 10. -/
def isCont (b : Nat) : Bool := 0x80 ≤ b && b ≤ 0xbf

/-- Strict UTF-8 decoding of a byte sequence to a list of characters,
the semantics of Python `bytes.decode` with encoding UTF-8: rejects stray
continuation bytes, truncated sequences, overlong encodings, surrogates and
code points above 0x10FFFF.  Returns `none` where Python raises
UnicodeDecodeError. -/
def utf8DecodeList : List Nat → Option (List Char)
  | [] => some []
  | b :: bs =>
    if b < 0x80 then
      (utf8DecodeList bs).map (fun cs => Char.ofNat b :: cs)
    else if 0xc2 ≤ b && b ≤ 0xdf then
      match bs with
      | b1 :: bs1 =>
        if isCont b1 then
          (utf8DecodeList bs1).map
            (fun cs => Char.ofNat ((b - 0xc0) * 0x40 + (b1 - 0x80)) :: cs)
        else none
      | [] => none
    else if 0xe0 ≤ b && b ≤ 0xef then
      match bs with
      | b1 :: b2 :: bs2 =>
        if (if b = 0xe0 then 0xa0 ≤ b1 && b1 ≤ 0xbf
            else if b = 0xed then 0x80 ≤ b1 && b1 ≤ 0x9f
            else isCont b1) && isCont b2 then
          (utf8DecodeList bs2).map
            (fun cs =>
              Char.ofNat ((b - 0xe0) * 0x1000 + (b1 - 0x80) * 0x40 + (b2 - 0x80)) :: cs)
        else none
      | _ => none
    else if 0xf0 ≤ b && b ≤ 0xf4 then
      match bs with
      | b1 :: b2 :: b3 :: bs3 =>
        if (if b = 0xf0 then 0x90 ≤ b1 && b1 ≤ 0xbf
            else if b = 0xf4 then 0x80 ≤ b1 && b1 ≤ 0x8f
            else isCont b1) && isCont b2 && isCont b3 then
          (utf8DecodeList bs3).map
            (fun cs =>
              Char.ofNat ((b - 0xf0) * 0x40000 + (b1 - 0x80) * 0x1000 +
                (b2 - 0x80) * 0x40 + (b3 - 0x80)) :: cs)
        else none
      | _ => none
    else none

/-- Python `stderr.decode(UTF-8)`: `some` the decoded string, or `none`
where Python raises UnicodeDecodeError. -/
def utf8Decode (bs : List Nat) : Option String :=
  (utf8DecodeList bs).map (fun cs => String.mk cs)

/-- The dict returned by `x509_checkend`: always has a `result` key; a
`message` key is present on some paths only (`none` models its absence).
In Python the message value is the decoded stderr string or the caught
exception object; we model its `str()` rendering, which is what
`str.format` interpolates. -/
structure XDict where
  result : Nat
  message : Option String
  deriving DecidableEq, Repr

/-- Outcome of one `subprocess.Popen` plus `communicate` of the openssl
command: either an exception raised while spawning or communicating (with
its string rendering), or a completed process with its integer return code
and raw stdout and stderr byte strings. -/
inductive SpawnOutcome where
  | exc (e : String)
  | completed (returncode : Int) (stdoutBytes stderrBytes : List Nat)
  deriving DecidableEq, Repr

/-- A Python exception escaping the modelled functions. -/
inductive PyError where
  | unicodeDecodeError
  | nameError (n : String)
  | keyError (k : String)
  deriving DecidableEq, Repr

/-- Embedding of `x509_checkend(cert_filename, time)`.  The try block covers
only `Popen` and `communicate`, whose outcome is `outcome`; an exception
there returns the dict with result 2 and the exception as message.  When the
return code is 1, stderr is decoded (outside the try block, so a
UnicodeDecodeError escapes the function); nonempty decoded stderr gives
result 2 with the stderr text, empty gives result 1.  Any other return code
gives result 0 with stderr ignored.  `cert_filename` and `time` only feed
the command line, so they do not affect the result given the outcome. -/
def x509_checkend (cert_filename : String) (time : Int) (outcome : SpawnOutcome) :
    Except PyError XDict :=
  match outcome with
  | .exc e => .ok ⟨2, some e⟩
  | .completed returncode _ stderrBytes =>
    if returncode = 1 then
      match utf8Decode stderrBytes with
      | none => .error .unicodeDecodeError
      | some s =>
        if ¬ (s = "") then .ok ⟨2, some s⟩
        else .ok ⟨1, none⟩
    else .ok ⟨0, none⟩

/-- Embedding of `check_cert_expiry(cert_filename, warn, crit)`.

`argsCert` models the free variable `args` read in the warning branch: the
script only defines `args` in the `__main__` block, so when the function is
called with that global absent the branch raises NameError (`argsCert =
none`); otherwise the branch formats `args.cert_filename`, the value held in
`argsCert`, and not the `cert_filename` parameter.

`env` gives the `SpawnOutcome` of the openssl spawn at each horizon (in
seconds).  The second component of the result is the list of horizons
probed, in order, recording how many times `x509_checkend` ran. -/
def check_cert_expiry (argsCert : Option String) (env : Int → SpawnOutcome)
    (cert_filename : String) (warn crit : Int) :
    Except PyError (Nat × String) × List Int :=
  match x509_checkend cert_filename (crit * 86400) (env (crit * 86400)) with
  | .error e => (.error e, [crit * 86400])
  | .ok check =>
    if check.result = 1 then
      (.ok (STATUS_CRIT,
        "CRITICAL: Certificate " ++ cert_filename ++
          " due to expire in less than " ++ toString crit ++ " days."),
       [crit * 86400])
    else if check.result = 2 then
      match check.message with
      | none => (.error (.keyError "message"), [crit * 86400])
      | some m =>
        (.ok (STATUS_UNKNOWN,
          "UNKNOWN: checking certificate " ++ cert_filename ++
            " failed with " ++ m),
         [crit * 86400])
    else
      match x509_checkend cert_filename (warn * 86400) (env (warn * 86400)) with
      | .error e => (.error e, [crit * 86400, warn * 86400])
      | .ok check2 =>
        if check2.result = 1 then
          match argsCert with
          | none => (.error (.nameError "args"), [crit * 86400, warn * 86400])
          | some ac =>
            (.ok (STATUS_WARN,
              "WARNING: Certificate " ++ ac ++
                " due to expire in less than " ++ toString warn ++ " days."),
             [crit * 86400, warn * 86400])
        else
          (.ok (STATUS_OK,
            "OK: Certificate " ++ cert_filename ++ " has more than " ++
              toString warn ++ " days before expiry"),
           [crit * 86400, warn * 86400])

/-- Embedding of the `__main__` block after argument parsing: `args` is in
scope with `args.cert_filename = cert_filename`, `check_cert_expiry` is
called, its message printed as the one stdout line, and the process exits
with the if/elif chain over the status.  Result: the list of stdout lines
and the process exit code, or the escaping Python exception. -/
def mainRun (env : Int → SpawnOutcome) (cert_filename : String)
    (warn_days crit_days : Int) : Except PyError (List String × Nat) :=
  match (check_cert_expiry (some cert_filename) env cert_filename warn_days crit_days).1 with
  | .error e => .error e
  | .ok (status, msg) =>
    .ok ([msg],
      if status = STATUS_CRIT then STATUS_CRIT
      else if status = STATUS_WARN then STATUS_WARN
      else if status = STATUS_UNKNOWN then STATUS_UNKNOWN
      else 0)

/-- Every dict `x509_checkend` returns has result 0, 1 or 2, and carries a
message whenever the result is 2. -/
lemma x509_checkend_ok_shape (p : String) (t : Int) (o : SpawnOutcome) (d : XDict)
    (h : x509_checkend p t o = .ok d) :
    (d.result = 0 ∨ d.result = 1 ∨ d.result = 2) ∧ (d.result = 2 → d.message ≠ none) := by
  unfold x509_checkend at h
  split at h
  · cases h
    simp
  · split at h
    · split at h
      · simp at h
      · split at h
        · cases h
          simp
        · cases h
          simp
    · cases h
      simp

/-- The only exception `x509_checkend` lets escape is the UnicodeDecodeError
from decoding stderr. -/
lemma x509_checkend_error_shape (p : String) (t : Int) (o : SpawnOutcome) (e : PyError)
    (h : x509_checkend p t o = .error e) : e = PyError.unicodeDecodeError := by
  unfold x509_checkend at h
  split at h
  · simp at h
  · split at h
    · split at h
      · cases h
        rfl
      · split at h
        · simp at h
        · simp at h
    · simp at h

/-- C1: if the probe at horizon crit times 86400 seconds reports Expiring
(result 1), the classifier returns CRITICAL with the critical message,
regardless of warn and of its relation to crit, and the only probe performed
is the critical-horizon one. -/
theorem C1_crit_expiring_short_circuits
    (argsCert : Option String) (env : Int → SpawnOutcome)
    (path : String) (warn crit : Int) (d : XDict)
    (hprobe : x509_checkend path (crit * 86400) (env (crit * 86400)) = .ok d)
    (hexp : d.result = 1) :
    check_cert_expiry argsCert env path warn crit =
      (.ok (STATUS_CRIT, "CRITICAL: Certificate " ++ path ++
        " due to expire in less than " ++ toString crit ++ " days."),
       [crit * 86400]) := by
  unfold check_cert_expiry
  rw [hprobe]
  simp [hexp]

/-- Witness for C1 at a concrete input: certificate c.pem, warn 14, crit 7,
the spawn reporting exit code 1 with empty stderr. -/
theorem C1_witness :
    x509_checkend "c.pem" ((7 : Int) * 86400)
        ((fun _ => SpawnOutcome.completed 1 [] []) ((7 : Int) * 86400)) =
      .ok ⟨1, none⟩ ∧
    check_cert_expiry (some "c.pem") (fun _ => SpawnOutcome.completed 1 [] [])
        "c.pem" 14 7 =
      (.ok (STATUS_CRIT, "CRITICAL: Certificate " ++ "c.pem" ++
        " due to expire in less than " ++ toString (7 : Int) ++ " days."),
       [(7 : Int) * 86400]) :=
  ⟨rfl, C1_crit_expiring_short_circuits (some "c.pem")
    (fun _ => SpawnOutcome.completed 1 [] []) "c.pem" 14 7 ⟨1, none⟩ rfl rfl⟩

/-- C2: when the critical-horizon probe reports NotExpiring (result 0) and
the warning-horizon probe is Indeterminate (result 2), the classifier
returns OK, not UNKNOWN, with the message that the certificate has more
than warn days before expiry. -/
theorem C2_warn_indeterminate_is_ok
    (argsCert : Option String) (env : Int → SpawnOutcome)
    (path : String) (warn crit : Int) (d1 d2 : XDict)
    (h1 : x509_checkend path (crit * 86400) (env (crit * 86400)) = .ok d1)
    (h1r : d1.result = 0)
    (h2 : x509_checkend path (warn * 86400) (env (warn * 86400)) = .ok d2)
    (h2r : d2.result = 2) :
    check_cert_expiry argsCert env path warn crit =
      (.ok (STATUS_OK, "OK: Certificate " ++ path ++ " has more than " ++
        toString warn ++ " days before expiry"),
       [crit * 86400, warn * 86400]) := by
  unfold check_cert_expiry
  rw [h1]
  simp only [h1r]
  norm_num
  rw [h2]
  simp [h2r]

/-- Witness for C2 at a concrete input: the critical probe completes with
exit code 0, the warning probe raises an exception in Popen. -/
theorem C2_witness :
    x509_checkend "c.pem" ((7 : Int) * 86400)
        ((fun h => if h = (7 : Int) * 86400 then SpawnOutcome.completed 0 [] []
          else SpawnOutcome.exc "boom") ((7 : Int) * 86400)) = .ok ⟨0, none⟩ ∧
    x509_checkend "c.pem" ((14 : Int) * 86400)
        ((fun h => if h = (7 : Int) * 86400 then SpawnOutcome.completed 0 [] []
          else SpawnOutcome.exc "boom") ((14 : Int) * 86400)) = .ok ⟨2, some "boom"⟩ ∧
    check_cert_expiry (some "c.pem")
        (fun h => if h = (7 : Int) * 86400 then SpawnOutcome.completed 0 [] []
          else SpawnOutcome.exc "boom") "c.pem" 14 7 =
      (.ok (STATUS_OK, "OK: Certificate " ++ "c.pem" ++ " has more than " ++
        toString (14 : Int) ++ " days before expiry"),
       [(7 : Int) * 86400, (14 : Int) * 86400]) :=
  ⟨rfl, rfl,
   C2_warn_indeterminate_is_ok (some "c.pem")
     (fun h => if h = (7 : Int) * 86400 then SpawnOutcome.completed 0 [] []
       else SpawnOutcome.exc "boom")
     "c.pem" 14 7 ⟨0, none⟩ ⟨2, some "boom"⟩ rfl rfl rfl rfl⟩

/-- C3 counterexample: with the critical probe Indeterminate with reason
err, the returned message is prefixed with the severity word, so it is not
the exact string the claim states. -/
theorem C3_counterexample :
    (check_cert_expiry (some "c.pem") (fun _ => SpawnOutcome.exc "err")
        "c.pem" 14 7).1 =
      .ok (STATUS_UNKNOWN, "UNKNOWN: checking certificate c.pem failed with err") ∧
    ¬ (check_cert_expiry (some "c.pem") (fun _ => SpawnOutcome.exc "err")
        "c.pem" 14 7).1 =
      .ok (STATUS_UNKNOWN, "checking certificate c.pem failed with err") := by
  constructor
  · rfl
  · intro h
    rw [show (check_cert_expiry (some "c.pem") (fun _ => SpawnOutcome.exc "err")
        "c.pem" 14 7).1 =
      .ok (STATUS_UNKNOWN, "UNKNOWN: checking certificate c.pem failed with err")
      from rfl] at h
    simp at h

/-- C3 amended: when the critical-horizon probe is Indeterminate with reason
m, the classifier returns UNKNOWN with the message "UNKNOWN: checking
certificate <path> failed with <m>" (severity prefix included), independent
of warn, and the warning probe is never invoked. -/
theorem C3_crit_indeterminate_is_unknown
    (argsCert : Option String) (env : Int → SpawnOutcome)
    (path : String) (warn crit : Int) (m : String)
    (hprobe : x509_checkend path (crit * 86400) (env (crit * 86400)) = .ok ⟨2, some m⟩) :
    check_cert_expiry argsCert env path warn crit =
      (.ok (STATUS_UNKNOWN,
        "UNKNOWN: checking certificate " ++ path ++ " failed with " ++ m),
       [crit * 86400]) := by
  unfold check_cert_expiry
  rw [hprobe]
  norm_num

/-- Witness for C3 at a concrete input: the critical probe raises in Popen
with rendering err. -/
theorem C3_witness :
    x509_checkend "c.pem" ((7 : Int) * 86400)
        ((fun _ => SpawnOutcome.exc "err") ((7 : Int) * 86400)) = .ok ⟨2, some "err"⟩ ∧
    check_cert_expiry (some "c.pem") (fun _ => SpawnOutcome.exc "err") "c.pem" 14 7 =
      (.ok (STATUS_UNKNOWN,
        "UNKNOWN: checking certificate " ++ "c.pem" ++ " failed with " ++ "err"),
       [(7 : Int) * 86400]) :=
  ⟨rfl, C3_crit_indeterminate_is_unknown (some "c.pem")
    (fun _ => SpawnOutcome.exc "err") "c.pem" 14 7 "err" rfl⟩

/-- C4: evaluation at the failing input. When the spawn completes with exit
code 1 and stderr holding the byte 0xff (not valid UTF-8), the decode of
stderr sits outside the try block and its UnicodeDecodeError escapes
`x509_checkend` instead of being converted to an Indeterminate result. -/
theorem C4_decode_error_escapes :
    x509_checkend "cert.pem" 604800 (SpawnOutcome.completed 1 [] [0xff]) =
      .error PyError.unicodeDecodeError := rfl

/-- C5: evaluation at the failing input. The WARNING branch formats the
free variable args.cert_filename: called without the CLI globals the branch
raises NameError, and with the global bound to a different path the message
carries the global value, not the cert_filename parameter (here c.pem). -/
theorem C5_warning_message_uses_global_args :
    (check_cert_expiry none
        (fun h => if h = (7 : Int) * 86400 then SpawnOutcome.completed 0 [] []
          else SpawnOutcome.completed 1 [] [])
        "c.pem" 14 7).1 = .error (PyError.nameError "args") ∧
    (check_cert_expiry (some "other.pem")
        (fun h => if h = (7 : Int) * 86400 then SpawnOutcome.completed 0 [] []
          else SpawnOutcome.completed 1 [] [])
        "c.pem" 14 7).1 =
      .ok (STATUS_WARN,
        "WARNING: Certificate other.pem due to expire in less than 14 days.") :=
  ⟨rfl, rfl⟩

/-- C6 counterexample: the spawn completes with exit code 2 and the
diagnostic err on stderr, yet the prober returns result 0 (NotExpiring),
not an Indeterminate result carrying the text. -/
theorem C6_counterexample :
    x509_checkend "c.pem" ((7 : Int) * 86400)
        (SpawnOutcome.completed 2 [] [0x65, 0x72, 0x72]) = .ok ⟨0, none⟩ ∧
    ¬ ((0 : Nat) = 2) :=
  ⟨rfl, by decide⟩

/-- C6 amended: the prober yields Indeterminate with the raw stderr text
exactly when the exit status is 1 and stderr is nonempty, Indeterminate
with the exception rendering when the spawn raises, Expiring when the exit
status is 1 with empty stderr, and NotExpiring for every other exit
status, with any diagnostic text ignored. -/
theorem C6_stderr_only_on_exit_one
    (path : String) (time rc : Int) (so se : List Nat) (s e : String)
    (hdec : utf8Decode se = some s) :
    (x509_checkend path time (SpawnOutcome.exc e) = .ok ⟨2, some e⟩) ∧
    (rc = 1 → ¬ (s = "") →
      x509_checkend path time (SpawnOutcome.completed rc so se) = .ok ⟨2, some s⟩) ∧
    (rc = 1 → s = "" →
      x509_checkend path time (SpawnOutcome.completed rc so se) = .ok ⟨1, none⟩) ∧
    (¬ (rc = 1) →
      x509_checkend path time (SpawnOutcome.completed rc so se) = .ok ⟨0, none⟩) := by
  refine ⟨rfl, ?_, ?_, ?_⟩
  · intro h1 hs
    simp only [x509_checkend]
    rw [if_pos h1, hdec]
    simp [hs]
  · intro h1 hs
    simp only [x509_checkend]
    rw [if_pos h1, hdec]
    simp [hs]
  · intro h1
    simp only [x509_checkend]
    rw [if_neg h1]

/-- Witness for C6 at concrete inputs: stderr bytes spelling err, exit
code 1, and an exception rendering boom. -/
theorem C6_witness :
    (x509_checkend "c.pem" 604800 (SpawnOutcome.exc "boom") = .ok ⟨2, some "boom"⟩) ∧
    ((1 : Int) = 1 → ¬ ("err" = "") →
      x509_checkend "c.pem" 604800 (SpawnOutcome.completed 1 [] [0x65, 0x72, 0x72]) =
        .ok ⟨2, some "err"⟩) ∧
    ((1 : Int) = 1 → "err" = "" →
      x509_checkend "c.pem" 604800 (SpawnOutcome.completed 1 [] [0x65, 0x72, 0x72]) =
        .ok ⟨1, none⟩) ∧
    (¬ ((1 : Int) = 1) →
      x509_checkend "c.pem" 604800 (SpawnOutcome.completed 1 [] [0x65, 0x72, 0x72]) =
        .ok ⟨0, none⟩) :=
  C6_stderr_only_on_exit_one "c.pem" 604800 1 [] [0x65, 0x72, 0x72] "err" "boom" rfl

/-- Every status `check_cert_expiry` returns is one of the four severity
codes. -/
lemma check_cert_expiry_status (a : Option String) (env : Int → SpawnOutcome)
    (p : String) (w c : Int) (st : Nat) (m : String)
    (h : (check_cert_expiry a env p w c).1 = .ok (st, m)) :
    st = STATUS_OK ∨ st = STATUS_WARN ∨ st = STATUS_CRIT ∨ st = STATUS_UNKNOWN := by
  simp only [STATUS_OK, STATUS_WARN, STATUS_CRIT, STATUS_UNKNOWN]
  unfold check_cert_expiry at h
  split at h
  · simp at h
  · split at h
    · simp [STATUS_CRIT] at h
      omega
    · split at h
      · split at h
        · simp at h
        · simp [STATUS_UNKNOWN] at h
          omega
      · split at h
        · simp at h
        · split at h
          · split at h
            · simp at h
            · simp [STATUS_WARN] at h
              omega
          · simp [STATUS_OK] at h
            omega

/-- C7: whenever the classifier returns a status and message, the process
exit code equals the status exactly, and the status is one of the four
severity codes 0, 1, 2, 3. -/
theorem C7_exit_code_equals_severity
    (env : Int → SpawnOutcome) (path : String) (warn crit : Int)
    (status : Nat) (msg : String)
    (hrun : (check_cert_expiry (some path) env path warn crit).1 = .ok (status, msg)) :
    (∃ lines, mainRun env path warn crit = .ok (lines, status)) ∧
    (status = STATUS_OK ∨ status = STATUS_WARN ∨
      status = STATUS_CRIT ∨ status = STATUS_UNKNOWN) := by
  have hst := check_cert_expiry_status (some path) env path warn crit status msg hrun
  refine ⟨⟨[msg], ?_⟩, hst⟩
  unfold mainRun
  rw [hrun]
  rcases hst with h | h | h | h <;> subst h <;>
    simp [STATUS_OK, STATUS_WARN, STATUS_CRIT, STATUS_UNKNOWN]

/-- Witness for C7 at a concrete input: every spawn completes with exit
code 0, giving the OK status and exit code 0. -/
theorem C7_witness :
    ((∃ lines, mainRun (fun _ => SpawnOutcome.completed 0 [] []) "c.pem" 14 7 =
        .ok (lines, 0)) ∧
      ((0 : Nat) = STATUS_OK ∨ (0 : Nat) = STATUS_WARN ∨
        (0 : Nat) = STATUS_CRIT ∨ (0 : Nat) = STATUS_UNKNOWN)) :=
  C7_exit_code_equals_severity (fun _ => SpawnOutcome.completed 0 [] [])
    "c.pem" 14 7 0
    ("OK: Certificate " ++ "c.pem" ++ " has more than " ++ toString (14 : Int) ++
      " days before expiry") rfl

/-- C8: whenever the classifier returns a status and message, the process
writes exactly that one message line to stdout before exiting. -/
theorem C8_stdout_single_line
    (env : Int → SpawnOutcome) (path : String) (warn crit : Int)
    (status : Nat) (msg : String)
    (hrun : (check_cert_expiry (some path) env path warn crit).1 = .ok (status, msg)) :
    ∃ code, mainRun env path warn crit = .ok ([msg], code) := by
  unfold mainRun
  rw [hrun]
  exact ⟨_, rfl⟩

/-- Witness for C8 at a concrete input: every spawn completes with exit
code 1, giving the CRITICAL message as the single stdout line. -/
theorem C8_witness :
    ∃ code, mainRun (fun _ => SpawnOutcome.completed 1 [] []) "c.pem" 14 7 =
      .ok (["CRITICAL: Certificate " ++ "c.pem" ++
        " due to expire in less than " ++ toString (7 : Int) ++ " days."], code) :=
  C8_stdout_single_line (fun _ => SpawnOutcome.completed 1 [] []) "c.pem" 14 7
    STATUS_CRIT
    ("CRITICAL: Certificate " ++ "c.pem" ++ " due to expire in less than " ++
      toString (7 : Int) ++ " days.") rfl

/-- C9: the classifier is a deterministic function of its arguments and of
the probe outcomes: two environments that agree at the two probed horizons
produce identical status, message and probe sequence. -/
theorem C9_deterministic
    (argsCert : Option String) (env1 env2 : Int → SpawnOutcome)
    (path : String) (warn crit : Int)
    (hc : env1 (crit * 86400) = env2 (crit * 86400))
    (hw : env1 (warn * 86400) = env2 (warn * 86400)) :
    check_cert_expiry argsCert env1 path warn crit =
      check_cert_expiry argsCert env2 path warn crit := by
  unfold check_cert_expiry
  rw [hc, hw]

/-- Witness for C9 at concrete inputs: two syntactically different
environments agreeing at the two probed horizons. -/
theorem C9_witness :
    check_cert_expiry (some "c.pem") (fun _ => SpawnOutcome.exc "x") "c.pem" 14 7 =
      check_cert_expiry (some "c.pem")
        (fun h => if h = 0 then SpawnOutcome.completed 0 [] []
          else SpawnOutcome.exc "x") "c.pem" 14 7 :=
  C9_deterministic (some "c.pem") (fun _ => SpawnOutcome.exc "x")
    (fun h => if h = 0 then SpawnOutcome.completed 0 [] []
      else SpawnOutcome.exc "x") "c.pem" 14 7 rfl rfl

/-- C10 counterexample: with exit status 1 and stderr holding the lone
byte 0xc3 (a truncated UTF-8 sequence), `x509_checkend` does not return a
dict at all: the UnicodeDecodeError escapes. -/
theorem C10_counterexample :
    x509_checkend "c.pem" ((14 : Int) * 86400)
      (SpawnOutcome.completed 1 [] [0xc3]) = .error PyError.unicodeDecodeError := rfl

/-- C10 amended: whenever `x509_checkend` does return a dict, its result is
0, 1 or 2 and a message is present whenever the result is 2; consequently
`check_cert_expiry`, which subscripts the message key only when the result
is 2, never raises KeyError. -/
theorem C10_dict_shape :
    (∀ (path : String) (time : Int) (o : SpawnOutcome) (d : XDict),
      x509_checkend path time o = .ok d →
        (d.result = 0 ∨ d.result = 1 ∨ d.result = 2) ∧
          (d.result = 2 → d.message ≠ none)) ∧
    (∀ (a : Option String) (env : Int → SpawnOutcome) (path : String)
      (warn crit : Int) (k : String),
      ¬ (check_cert_expiry a env path warn crit).1 = .error (PyError.keyError k)) := by
  refine ⟨x509_checkend_ok_shape, ?_⟩
  intro a env path warn crit k h
  unfold check_cert_expiry at h
  split at h
  · rename_i e he
    have he2 := x509_checkend_error_shape _ _ _ _ he
    subst he2
    simp at h
  · rename_i check hd
    have hshape := x509_checkend_ok_shape _ _ _ _ hd
    split at h
    · simp at h
    · split at h
      · rename_i hr2
        rcases hm : check.message with _ | m
        · exact hshape.2 hr2 hm
        · rw [hm] at h
          simp at h
      · rcases h2 : x509_checkend path (warn * 86400) (env (warn * 86400)) with e2 | check2
        · have he2 := x509_checkend_error_shape _ _ _ _ h2
          subst he2
          rw [h2] at h
          simp at h
        · rw [h2] at h
          by_cases hw1 : check2.result = 1 <;> rcases a with _ | ac <;> simp [hw1] at h

/-- Witness for C10 at concrete inputs: a spawn exception gives the dict
with result 2 and a message, and a concrete run of the classifier does not
raise KeyError. -/
theorem C10_witness :
    ((XDict.result ⟨2, some "boom"⟩ = 0 ∨ XDict.result ⟨2, some "boom"⟩ = 1 ∨
        XDict.result ⟨2, some "boom"⟩ = 2) ∧
      (XDict.result ⟨2, some "boom"⟩ = 2 → XDict.message ⟨2, some "boom"⟩ ≠ none)) ∧
    ¬ (check_cert_expiry (some "c.pem") (fun _ => SpawnOutcome.exc "boom")
        "c.pem" 14 7).1 = .error (PyError.keyError "message") :=
  ⟨C10_dict_shape.1 "c.pem" 604800 (SpawnOutcome.exc "boom") ⟨2, some "boom"⟩ rfl,
   C10_dict_shape.2 (some "c.pem") (fun _ => SpawnOutcome.exc "boom")
     "c.pem" 14 7 "message"⟩
